import Mathlib

/-!
Verification of the concurrent contact-processing and outreach pipeline of
the ai-leads repository (`app/core/create_gmail_drafts.py`,
`app/core/create_zoho_drafts.py`, `app/core/email_utils.py`).

The Python code is shallowly embedded: pure string manipulation is
translated directly; network calls (website fetch, Gmail API, token
refresh, LLM) are modelled by oracles (functions from the call index to
the response the external service gives), and the Google-Sheets store is
modelled as the list of rows it holds (first row = headers), with the
code's read-modify-write cycle embedded as a pure store transformer.
-/

namespace AiLeads

/-! ### String helpers mirroring the Python string operations -/

/-- Whether `pat` occurs as a contiguous run inside `s` (Python `pat in s`). -/
def hasSub : List Char → List Char → Bool
  | [], pat => pat.isEmpty
  | c :: rest, pat => pat.isPrefixOf (c :: rest) || hasSub rest pat

/-- Python `pat in s` on strings. -/
def containsStr (s pat : String) : Bool := hasSub s.data pat.data

/-- Python `str.lower()` (ASCII, which covers every string the code builds). -/
def pyLower (s : String) : String := ⟨s.data.map Char.toLower⟩

/-- Python `str.capitalize()`: first character uppercased, the rest lowercased
(ASCII). -/
def pyCapitalize (s : String) : String :=
  match s.data with
  | [] => ""
  | c :: cs => ⟨c.toUpper :: cs.map Char.toLower⟩

/-- Python `str.title()` restricted to ASCII letters: a letter is uppercased
when the previous character is not a letter, lowercased otherwise. -/
def pyTitleGo : Bool → List Char → List Char
  | _, [] => []
  | prevAlpha, c :: cs =>
      if c.isAlpha then
        (if prevAlpha then c.toLower else c.toUpper) :: pyTitleGo true cs
      else
        c :: pyTitleGo false cs

/-- Python `str.title()` (ASCII). -/
def pyTitle (s : String) : String := ⟨pyTitleGo false s.data⟩

/-- Python `not s or s.strip() == ''`: the string has no non-whitespace
character. -/
def isBlank (s : String) : Bool := s.data.all Char.isWhitespace

/-- Python `s.split(sep)` for a one-character separator. -/
def splitOnChar (sep : Char) : List Char → List (List Char)
  | [] => [[]]
  | c :: rest =>
      if c == sep then [] :: splitOnChar sep rest
      else
        match splitOnChar sep rest with
        | [] => [[c]]
        | h :: t => (c :: h) :: t

/-- Python `s.split(sep)` on strings, one-character separator. -/
def pySplit (s : String) (sep : Char) : List String :=
  (splitOnChar sep s.data).map (fun l => ⟨l⟩)

/-- Python `s.startswith(pre)`. -/
def pyStartsWith (s pre : String) : Bool := pre.data.isPrefixOf s.data

/-- One pass of Python `s.replace(pat, repl)` with structural fuel (one unit
per character examined); with `fuel = l.length` and a nonempty `pat` this is
exactly the leftmost non-overlapping replacement Python performs. -/
def replaceFuel (pat repl : List Char) : Nat → List Char → List Char
  | 0, l => l
  | _ + 1, [] => []
  | fuel + 1, c :: rest =>
      if pat.isPrefixOf (c :: rest) then
        repl ++ replaceFuel pat repl fuel ((c :: rest).drop pat.length)
      else c :: replaceFuel pat repl fuel rest

/-- Python `s.replace(pat, repl)` for a nonempty `pat`. -/
def pyReplace (s pat repl : String) : String :=
  ⟨replaceFuel pat.data repl.data s.data.length s.data⟩

/-- Python `sep.join(parts)`. -/
def pyJoin (sep : String) : List String → String
  | [] => ""
  | [x] => x
  | x :: y :: xs => x ++ sep ++ pyJoin sep (y :: xs)

/-! ### Error classification (`create_gmail_drafts.is_transient_error`, lines 161-235) -/

/-- The `permanent_patterns` list of `is_transient_error`, verbatim from the source. -/
def permanent_patterns : List String :=
  [ "invalid email", "malformed", "not found", "forbidden", "unauthorized",
    "permission denied", "invalid request", "bad request",
    "nodename nor servname provided", "name or service not known",
    "no address associated with hostname", "name resolution failed",
    "host not found", "domain not found", "cannot resolve hostname",
    "getaddrinfo failed", "cannot connect to host", "connection refused",
    "ssl", "certificate", "tlsv1_alert", "ssl handshake", "[none]",
    "internal error" ]

/-- The `transient_patterns` list of `is_transient_error`, verbatim from the source. -/
def transient_patterns : List String :=
  [ "timeout", "network unreachable", "temporary failure",
    "service unavailable", "bad gateway", "gateway timeout",
    "too many requests", "rate limit", "quota exceeded", "server error",
    "internal server error", "unexpected result format",
    "token may have expired", "authentication failed" ]

/-- Embedding of `is_transient_error(error_message)`: empty or blank messages
are transient; otherwise the lowercased message is matched against the
permanent patterns first (a hit means permanent), then the transient
patterns (a hit means transient), and an unmatched message defaults to
permanent (the source comments: when in doubt, mark as done). -/
def is_transient_error (error_message : String) : Bool :=
  if isBlank error_message then true
  else
    let error_lower := pyLower error_message
    if permanent_patterns.any (fun p => containsStr error_lower p) then false
    else if transient_patterns.any (fun p => containsStr error_lower p) then true
    else false

/-! ### Email validation (`create_gmail_drafts.is_valid_email`, lines 143-158) -/

/-- Characters allowed by `[a-zA-Z0-9._%+-]` (the local part of the email regex). -/
def isLocalChar (c : Char) : Bool :=
  c.isAlpha || c.isDigit || c == '.' || c == '_' || c == '%' || c == '+' || c == '-'

/-- Characters allowed by `[a-zA-Z0-9.-]` (the domain part of the email regex). -/
def isDomainChar (c : Char) : Bool :=
  c.isAlpha || c.isDigit || c == '.' || c == '-'

/-- Whether the character list matches the regex fragment
`[a-zA-Z0-9.-]+\.[a-zA-Z]\x7b2,\x7d` anchored at both ends: some split
`A ++ "." ++ B` with `A` a nonempty run of domain characters and `B` at
least two letters (regex backtracking accepts any such split). -/
def domainOk (l : List Char) : Bool :=
  (List.range l.length).any fun i =>
    i != 0 && (l.take i).all isDomainChar &&
      (match l.drop i with
       | '.' :: b => decide (2 ≤ b.length) && b.all (fun c => c.isAlpha)
       | _ => false)

/-- Embedding of `is_valid_email(email)`: empty strings are invalid, otherwise
the string must match `^[a-zA-Z0-9._%+-]+@[a-zA-Z0-9.-]+\.[a-zA-Z]\x7b2,\x7d$`.
Neither character class contains `@`, so a match has exactly one `@`.
(Python's `$` also matches before one trailing newline; the embedding anchors
at the true end of the string, the only divergence.) -/
def is_valid_email (email : String) : Bool :=
  if email = "" then false
  else
    match pySplit email '@' with
    | [localPart, domain] =>
        !localPart.isEmpty && localPart.data.all isLocalChar && domainOk domain.data
    | _ => false

/-! ### Facts about substring containment used across the claims -/

theorem hasSub_nil_pat (l : List Char) : hasSub l [] = true := by
  cases l with
  | nil => rfl
  | cons c rest => simp [hasSub, List.isPrefixOf]

theorem isPrefixOf_append {pat l r : List Char} (h : pat.isPrefixOf l = true) :
    pat.isPrefixOf (l ++ r) = true := by
  rw [List.isPrefixOf_iff_prefix] at h ⊢
  exact h.trans (List.prefix_append l r)

theorem hasSub_append_left {l r pat : List Char} (h : hasSub l pat = true) :
    hasSub (l ++ r) pat = true := by
  induction l with
  | nil =>
      simp [hasSub] at h
      subst h
      exact hasSub_nil_pat r
  | cons c rest ih =>
      simp only [hasSub, Bool.or_eq_true] at h
      cases h with
      | inl h =>
          simp only [List.cons_append, hasSub, Bool.or_eq_true]
          exact Or.inl (isPrefixOf_append h)
      | inr h =>
          simp only [List.cons_append, hasSub, Bool.or_eq_true]
          exact Or.inr (ih h)

theorem containsStr_append_left {s t pat : String} (h : containsStr s pat = true) :
    containsStr (s ++ t) pat = true := by
  unfold containsStr at h ⊢
  rw [String.data_append]
  exact hasSub_append_left h

theorem pyLower_append (s t : String) : pyLower (s ++ t) = pyLower s ++ pyLower t := by
  simp [pyLower, String.data_append]
  rfl

/-- A message that starts with the code's "Invalid email format, skipping:"
prefix is classified permanent: the permanent pattern "invalid email" occurs
in its lowercasing. -/
theorem invalid_email_prefix_is_permanent (rest : String) :
    is_transient_error ("Invalid email format, skipping: " ++ rest) = false := by
  have hsub : containsStr (pyLower ("Invalid email format, skipping: " ++ rest)) "invalid email" = true := by
    rw [pyLower_append]
    exact containsStr_append_left (by decide)
  have hblank : isBlank ("Invalid email format, skipping: " ++ rest) = false := by
    unfold isBlank
    rw [String.data_append, List.all_append]
    have h : ("Invalid email format, skipping: ").data.all Char.isWhitespace = false := by decide
    rw [h, Bool.false_and]
  unfold is_transient_error
  rw [hblank]
  simp only [Bool.false_eq_true, if_false]
  rw [if_pos]
  rw [List.any_eq_true]
  exact ⟨"invalid email", by decide, hsub⟩

/-! ### Claim C2: pattern behaviour of the error classifier -/

/-- C2 counterexample: the claim fails on the code at three concrete inputs.
"HTTP 503" contains "503" yet is classified permanent (no transient pattern
names the numeric code 503); "ssl timeout" contains "timeout" yet is
classified permanent (the permanent pattern "ssl" is checked first);
"404 timeout" contains "404" yet is classified transient (no permanent
pattern names the numeric code 404, and "timeout" matches). -/
theorem c2_counterexample :
    is_transient_error "HTTP 503" = false ∧
    is_transient_error "ssl timeout" = false ∧
    is_transient_error "404 timeout" = true := by
  refine ⟨by decide, by decide, by decide⟩

/-- C2 (amended): the classifier is a pure function of the message (it is a
plain function of `msg` by construction). A message containing "timeout" or
"rate limit" is transient provided no permanent pattern occurs in it
(permanent patterns are matched first); a non-blank message containing
"invalid email" is always permanent; and a non-blank message in which no
transient pattern occurs is permanent, which covers messages that mention
"503" or "404" only as numeric codes. -/
theorem c2_classifier_pattern_behaviour :
    (∀ msg : String, containsStr (pyLower msg) "timeout" = true →
        permanent_patterns.all (fun p => !containsStr (pyLower msg) p) = true →
        is_transient_error msg = true)
  ∧ (∀ msg : String, containsStr (pyLower msg) "rate limit" = true →
        permanent_patterns.all (fun p => !containsStr (pyLower msg) p) = true →
        is_transient_error msg = true)
  ∧ (∀ msg : String, isBlank msg = false → containsStr (pyLower msg) "invalid email" = true →
        is_transient_error msg = false)
  ∧ (∀ msg : String, isBlank msg = false →
        transient_patterns.all (fun p => !containsStr (pyLower msg) p) = true →
        is_transient_error msg = false) := by
  have noPerm : ∀ (msg : String),
      permanent_patterns.all (fun p => !containsStr (pyLower msg) p) = true →
      permanent_patterns.any (fun p => containsStr (pyLower msg) p) = false := by
    intro msg hall
    rw [List.any_eq_false]
    intro p hp
    have := (List.all_eq_true.mp hall) p hp
    simpa using this
  refine ⟨?_, ?_, ?_, ?_⟩
  · intro msg hsub hall
    unfold is_transient_error
    by_cases hb : isBlank msg
    · simp [hb]
    · simp only [hb, Bool.false_eq_true, if_false]
      rw [noPerm msg hall]
      simp only [Bool.false_eq_true, if_false]
      rw [if_pos]
      rw [List.any_eq_true]
      exact ⟨"timeout", by decide, hsub⟩
  · intro msg hsub hall
    unfold is_transient_error
    by_cases hb : isBlank msg
    · simp [hb]
    · simp only [hb, Bool.false_eq_true, if_false]
      rw [noPerm msg hall]
      simp only [Bool.false_eq_true, if_false]
      rw [if_pos]
      rw [List.any_eq_true]
      exact ⟨"rate limit", by decide, hsub⟩
  · intro msg hb hsub
    unfold is_transient_error
    simp only [hb, Bool.false_eq_true, if_false]
    rw [if_pos]
    rw [List.any_eq_true]
    exact ⟨"invalid email", by decide, hsub⟩
  · intro msg hb hall
    unfold is_transient_error
    simp only [hb, Bool.false_eq_true, if_false]
    have htrans : transient_patterns.any (fun p => containsStr (pyLower msg) p) = false := by
      rw [List.any_eq_false]
      intro p hp
      have := (List.all_eq_true.mp hall) p hp
      simpa using this
    rw [htrans]
    split <;> rfl

/-- Witness for C2's amended theorem at concrete inputs. -/
theorem c2_classifier_pattern_behaviour_witness :
    is_transient_error "rate limit exceeded" = true ∧ is_transient_error "HTTP 404" = false :=
  ⟨c2_classifier_pattern_behaviour.2.1 "rate limit exceeded" (by decide) (by decide),
   c2_classifier_pattern_behaviour.2.2.2 "HTTP 404" (by decide) (by decide)⟩

/-! ### The leads sheet as a store

The Google-Sheets `leads` table is modelled as a list of rows (each a list
of cell strings); the first row holds the headers. The code addresses the
columns `Email` and `Emailed?` through `headers.index(...)`. -/

/-- Python's row padding `while len(row) < len(headers): row.append('')`
from `update_lead_emailed_status`. -/
def padRow (headers row : List String) : List String :=
  row ++ List.replicate (headers.length - row.length) ""

/-- Embedding of `create_zoho_drafts.update_lead_emailed_status` (lines
340-381), the store write `process_contact` uses: read the whole table,
pad every row to the header width, set the `Emailed?` cell of every row
whose `Email` cell equals `email` to "True", and write the table back —
but only when at least one row matched; with no match, or missing
headers, the store is left untouched. -/
def update_lead_emailed_status (data : List (List String)) (email : String) :
    List (List String) :=
  match data with
  | [] => data
  | headers :: rows =>
    match headers.indexOf? "Email", headers.indexOf? "Emailed?" with
    | some ei, some di =>
        if rows.any (fun row => (padRow headers row).getD ei "" == email) then
          headers :: rows.map (fun row =>
            let p := padRow headers row
            if p.getD ei "" == email then p.set di "True" else p)
        else data
    | _, _ => data

namespace Zoho

/-- Embedding of `create_zoho_drafts.check_if_already_emailed` (lines
534-566) — the variant `create_gmail_drafts.process_contact` imports: true
exactly when some row long enough to hold both columns has the given email
and its `Emailed?` cell lowercased is "true". It reads the sheet and never
writes it. -/
def check_if_already_emailed (data : List (List String)) (email : String) : Bool :=
  match data with
  | [] => false
  | headers :: rows =>
    match headers.indexOf? "Email", headers.indexOf? "Emailed?" with
    | some ei, some di =>
        rows.any (fun row =>
          (decide (ei < row.length) && (row.getD ei "" == email)) &&
          (decide (di < row.length) && (pyLower (row.getD di "") == "true")))
    | _, _ => false

end Zoho

namespace EmailUtils

/-- Python truthiness plus membership test
`emailed_value and str(emailed_value).lower() in ('yes', 'true', '1')` from
`email_utils.check_if_already_emailed`. -/
def emailedTruthy (v : String) : Bool :=
  !(v == "") && ["yes", "true", "1"].contains (pyLower v)

/-- Embedding of `email_utils.check_if_already_emailed` (lines 522-583),
which works on the cached DataFrame (header row + rectangular data rows):
if any row for the email is truthy-marked, every row for the email has its
`Emailed?` cell set to "True" and the whole table is written back, and the
check returns true; on every other path the store is untouched and the
check returns false. -/
def check_if_already_emailed (data : List (List String)) (email : String) :
    Bool × List (List String) :=
  match data with
  | [] => (false, [])
  | headers :: rows =>
    if rows.isEmpty then (false, headers :: rows)
    else
      match headers.indexOf? "Email" with
      | none => (false, headers :: rows)
      | some ei =>
        let matching := rows.filter (fun r => r.getD ei "" == email)
        if matching.isEmpty then (false, headers :: rows)
        else
          match headers.indexOf? "Emailed?" with
          | none => (false, headers :: rows)
          | some di =>
            if matching.any (fun r => emailedTruthy (r.getD di "")) then
              (true,
               headers :: rows.map (fun r =>
                 if r.getD ei "" == email then r.set di "True" else r))
            else (false, headers :: rows)

end EmailUtils

/-- Observer: every data row whose `Email` cell equals `email` has "True" in
its `Emailed?` cell (vacuously true when the headers are missing). -/
def allMarked (data : List (List String)) (email : String) : Bool :=
  match data with
  | [] => true
  | headers :: rows =>
    match headers.indexOf? "Email", headers.indexOf? "Emailed?" with
    | some ei, some di =>
        rows.all (fun r => !(r.getD ei "" == email) || (r.getD di "" == "True"))
    | _, _ => true

/-- Observer: some data row whose `Email` cell equals `email` is
truthy-marked in the `Emailed?` cell (the precondition of scenario D). -/
def someTruthyMarked (data : List (List String)) (email : String) : Bool :=
  match data with
  | [] => false
  | headers :: rows =>
    match headers.indexOf? "Email", headers.indexOf? "Emailed?" with
    | some ei, some di =>
        rows.any (fun r => (r.getD ei "" == email) && EmailUtils.emailedTruthy (r.getD di ""))
    | _, _ => false

/-! ### Facts about the store operations -/

theorem indexOf?_getElem? {l : List String} {a : String} {i : Nat}
    (h : l.indexOf? a = some i) : l[i]? = some a := by
  induction l generalizing i with
  | nil => simp at h
  | cons x xs ih =>
      rw [List.indexOf?_cons] at h
      by_cases hx : x == a
      · rw [if_pos hx] at h
        cases h
        simpa using (eq_of_beq hx)
      · rw [if_neg hx] at h
        obtain ⟨j, hj, hji⟩ := Option.map_eq_some'.mp h
        subst hji
        simpa using ih hj

theorem indexOf?_lt_length {l : List String} {a : String} {i : Nat}
    (h : l.indexOf? a = some i) : i < l.length := by
  obtain ⟨hlt, -⟩ := List.getElem?_eq_some_iff.mp (indexOf?_getElem? h)
  exact hlt

theorem email_col_ne_emailed_col {headers : List String} {ei di : Nat}
    (he : headers.indexOf? "Email" = some ei)
    (hd : headers.indexOf? "Emailed?" = some di) : ei ≠ di := by
  intro hEq
  subst hEq
  have h1 := indexOf?_getElem? he
  have h2 := indexOf?_getElem? hd
  rw [h1] at h2
  exact absurd (Option.some.inj h2) (by decide)

theorem getD_replicate_empty (n j : Nat) :
    (List.replicate n ("" : String)).getD j "" = "" := by
  induction n generalizing j with
  | zero => simp [List.getD]
  | succ m ih =>
      cases j with
      | zero => rfl
      | succ k => exact ih k

theorem padRow_getD (headers row : List String) (i : Nat) :
    (padRow headers row).getD i "" = row.getD i "" := by
  unfold padRow
  rcases Nat.lt_or_ge i row.length with h | h
  · exact List.getD_append _ _ _ _ h
  · rw [List.getD_append_right _ _ _ _ h, List.getD_eq_default _ _ h,
      getD_replicate_empty]

theorem padRow_length {headers row : List String} :
    headers.length ≤ (padRow headers row).length := by
  unfold padRow
  rw [List.length_append, List.length_replicate]
  omega

/-- The store write marks every row held for the email: after
`update_lead_emailed_status` there is no partially-consolidated row. -/
theorem update_marks_all (data : List (List String)) (email : String) :
    allMarked (update_lead_emailed_status data email) email = true := by
  cases data with
  | nil => rfl
  | cons headers rows =>
    unfold update_lead_emailed_status
    dsimp only
    cases he : headers.indexOf? "Email" with
    | none =>
        dsimp only
        unfold allMarked
        dsimp only
        rw [he]
    | some ei =>
      cases hd : headers.indexOf? "Emailed?" with
      | none =>
          dsimp only
          unfold allMarked
          dsimp only
          rw [he, hd]
      | some di =>
        dsimp only
        by_cases hany : rows.any (fun row => (padRow headers row).getD ei "" == email)
        · rw [if_pos hany]
          unfold allMarked
          dsimp only
          rw [he, hd]
          dsimp only
          rw [List.all_eq_true]
          intro r hr
          obtain ⟨row, -, hrow⟩ := List.mem_map.mp hr
          by_cases hm : (padRow headers row).getD ei "" == email
          · rw [if_pos hm] at hrow
            subst hrow
            have hdi : di < (padRow headers row).length :=
              Nat.lt_of_lt_of_le (indexOf?_lt_length hd) padRow_length
            have : ((padRow headers row).set di "True").getD di "" = "True" := by
              rw [List.getD_eq_getElem?_getD, List.getElem?_set_self (by simpa using hdi)]
              rfl
            rw [this]
            simp
          · rw [if_neg hm] at hrow
            subst hrow
            simp only [Bool.or_eq_true, Bool.not_eq_true']
            left
            simpa using hm
        · rw [if_neg hany]
          unfold allMarked
          dsimp only
          rw [he, hd]
          dsimp only
          rw [List.all_eq_true]
          intro r hr
          rw [Bool.not_eq_true] at hany
          rw [List.any_eq_false] at hany
          have := hany r hr
          simp only [Bool.or_eq_true, Bool.not_eq_true']
          left
          rw [padRow_getD] at this
          simpa using this

/-! ### Website fetching (`create_gmail_drafts.fetch_website_with_retries`, lines 456-563)

Each HTTP attempt is modelled by an oracle from the attempt index to the
response the network gives: a status/body pair, a timeout, an
`aiohttp.ClientError`, or any other exception. The URL itself only selects
the oracle, so it is not a parameter of the model. -/

/-- What one website-fetch attempt can come back with. -/
inductive FetchResp where
  | http (status : Nat) (body : String)
  | timeout
  | clientError (msg : String)
  | unexpectedError (msg : String)

/-- The `(success, content, error)` triple of the fetcher, together with the
number of HTTP attempts it made (an instrumentation field). -/
structure FetchOut where
  success : Bool
  content : String
  error : String
  calls : Nat
  deriving Repr, DecidableEq

/-- What one iteration of the fetch loop decides: return an outcome now, or
fall through to the retry check carrying `last_error`. -/
inductive FetchStep where
  | done (out : FetchOut)
  | retry (lastError : String)

/-- One iteration of the fetcher's loop over the response of attempt
`attempt`. A 2xx with a body that is non-empty after stripping succeeds; a
2xx with a blank body falls through to the retry check with
"Received empty content"; 404 returns "Page not found (404)" at once;
other client statuses except 408 and 429 return "HTTP {status}" at once;
5xx, 408 and 429 fall through to the retry check; a timeout falls through
with "Timeout error"; `ClientError` and unexpected exceptions return at
once. -/
def fetchStep (resp : FetchResp) (attempt : Nat) : FetchStep :=
  match resp with
  | .http st body =>
      if 200 ≤ st ∧ st < 300 then
        if isBlank body then .retry "Received empty content"
        else .done ⟨true, body, "", attempt + 1⟩
      else if st = 404 then .done ⟨false, "", "Page not found (404)", attempt + 1⟩
      else if st < 500 ∧ st ≠ 408 ∧ st ≠ 429 then
        .done ⟨false, "", "HTTP " ++ toString st, attempt + 1⟩
      else .retry ("HTTP " ++ toString st)
  | .timeout => .retry "Timeout error"
  | .clientError m => .done ⟨false, "", "Client error: " ++ m, attempt + 1⟩
  | .unexpectedError m => .done ⟨false, "", "Unexpected error: " ++ m, attempt + 1⟩

/-- The fetcher's `for attempt in range(max_retries + 1)` loop. `remaining`
counts the retries still allowed (`max_retries - attempt`), so the Python
guard `attempt < max_retries` is the `r + 1` case: with budget left a
fall-through retries the next attempt, on the last attempt it returns
`(False, "", last_error)`. -/
def fetchGo (oracle : Nat → FetchResp) : Nat → Nat → FetchOut
  | 0, attempt =>
      match fetchStep (oracle attempt) attempt with
      | .done out => out
      | .retry e => ⟨false, "", e, attempt + 1⟩
  | r + 1, attempt =>
      match fetchStep (oracle attempt) attempt with
      | .done out => out
      | .retry _ => fetchGo oracle r (attempt + 1)

/-- Embedding of `fetch_website_with_retries(session, url, max_retries)`. -/
def fetch_website_with_retries (oracle : Nat → FetchResp) (maxRetries : Nat) : FetchOut :=
  fetchGo oracle maxRetries 0

/-! ### Draft creation against the Gmail API
(`create_gmail_drafts.create_draft_with_http_async`, lines 237-371)

Gmail API calls and token refreshes are modelled by oracles from the call
index to the outcome. `hasCreds` is `service_account_info and user_email`:
whether token-refresh credentials were passed in. -/

/-- What one Gmail draft-creation API call can come back with. -/
inductive ApiResp where
  | http (status : Nat) (text : String)
  | timeout
  | exn (msg : String)

/-- The `(success, error, token)` triple of the dispatcher, together with the
number of API calls and token-refresh attempts it made (instrumentation). -/
structure DraftOut where
  success : Bool
  error : String
  token : String
  apiCalls : Nat
  refreshes : Nat
  deriving Repr, DecidableEq

/-- The error string returned when a 401 cannot be retried (no credentials
or no budget left). -/
def tokenExpiredMsg (errorMsg : String) : String :=
  "TokenExpiredError: Gmail API token may have expired (" ++ errorMsg ++ ")"

/-- The body of the dispatcher's `for attempt in range(max_api_retries + 1)`
loop with `max_api_retries = 2`. `remaining` counts the attempts still
allowed after this one (the Python guard `attempt < max_api_retries` is the
`r + 1` case). 200/201 succeed; a 401 (or any error text mentioning
"token") refreshes and retries while credentials and budget remain, else
returns the token-expired error; 5xx retries while budget remains; other
statuses fail at once; a timeout refreshes and retries (or retries without
refresh when no credentials are held) while budget remains, else fails;
any other exception fails at once. -/
def draftGo (api : Nat → ApiResp) (refreshO : Nat → Except String String)
    (hasCreds : Bool) : Nat → String → Nat → Nat → DraftOut
  | 0, token, calls, refreshes =>
      match api calls with
      | .http st text =>
          if st = 200 ∨ st = 201 then ⟨true, "", token, calls + 1, refreshes⟩
          else
            let errorMsg := "Error creating draft: " ++ toString st ++ " - " ++ text
            if st = 401 ∨ containsStr (pyLower errorMsg) "token" then
              ⟨false, tokenExpiredMsg errorMsg, token, calls + 1, refreshes⟩
            else ⟨false, errorMsg, token, calls + 1, refreshes⟩
      | .timeout =>
          ⟨false, "Timeout error connecting to Gmail API: ", token, calls + 1, refreshes⟩
      | .exn m =>
          ⟨false, "Error in create_draft_with_http_async: " ++ m, token, calls + 1, refreshes⟩
  | r + 1, token, calls, refreshes =>
      match api calls with
      | .http st text =>
          if st = 200 ∨ st = 201 then ⟨true, "", token, calls + 1, refreshes⟩
          else
            let errorMsg := "Error creating draft: " ++ toString st ++ " - " ++ text
            if st = 401 ∨ containsStr (pyLower errorMsg) "token" then
              if hasCreds then
                match refreshO refreshes with
                | .ok newTok => draftGo api refreshO hasCreds r newTok (calls + 1) (refreshes + 1)
                | .error rerr =>
                    ⟨false, "Token refresh failed: " ++ rerr, token, calls + 1, refreshes + 1⟩
              else ⟨false, tokenExpiredMsg errorMsg, token, calls + 1, refreshes⟩
            else if 500 ≤ st then draftGo api refreshO hasCreds r token (calls + 1) refreshes
            else ⟨false, errorMsg, token, calls + 1, refreshes⟩
      | .timeout =>
          if hasCreds then
            match refreshO refreshes with
            | .ok newTok => draftGo api refreshO hasCreds r newTok (calls + 1) (refreshes + 1)
            | .error rerr =>
                ⟨false, "Token refresh after timeout failed: " ++ rerr, token, calls + 1,
                 refreshes + 1⟩
          else draftGo api refreshO hasCreds r token (calls + 1) refreshes
      | .exn m =>
          ⟨false, "Error in create_draft_with_http_async: " ++ m, token, calls + 1, refreshes⟩

/-- Embedding of `create_draft_with_http_async`: recipient validation
happens before any network call (inside the loop in the source, but it
returns on the first iteration when invalid), then the retry loop runs
with `max_api_retries = 2`. -/
def create_draft_with_http_async (api : Nat → ApiResp)
    (refreshO : Nat → Except String String) (access_token to_email : String)
    (hasCreds : Bool) : DraftOut :=
  if ¬ is_valid_email to_email then
    ⟨false, "Invalid email format: " ++ to_email, access_token, 0, 0⟩
  else
    draftGo api refreshO hasCreds 2 access_token 0 0

/-! ### Per-contact processing (`create_gmail_drafts.process_contact`, lines 565-714)

The stages that leave the process (website fetch, the LLM content pipeline
wrapped in `create_customized_email`, the Gmail API) are driven by oracles
held in an environment record. The content pipeline either returns a
`(subject, content)` pair or raises, which `process_contact` catches as
`custom_error`. The model covers the data paths of the function; the
Streamlit stop signal and the propagating `TokenExpiredError` /
`SheetsAuthError` exceptions abort processing without a returned outcome
and are outside it. -/

/-- Which arm of `process_contact` produced the outcome, carrying the raw
error string the arm classifies with `is_transient_error`. -/
inductive PCExit where
  | invalidEmail
  | alreadyEmailed
  | fetchFail (e : String)
  | customizeFail (e : String)
  | draftFail (e : String)
  | draftOk
  deriving Repr, DecidableEq

/-- The external world of one `process_contact` call. -/
structure PCEnv where
  fetchOracle : Nat → FetchResp
  customize : Except String (String × String)
  apiOracle : Nat → ApiResp
  refreshOracle : Nat → Except String String
  hasCreds : Bool

/-- The outcome of one `process_contact` call: the returned
`(success, elapsed, error, token)` tuple without the wall-clock field, the
store after the call, and instrumentation counting fetch attempts and
Gmail API calls. -/
structure PCOut where
  success : Bool
  error : String
  token : String
  store : List (List String)
  fetchCalls : Nat
  draftCalls : Nat
  exit : PCExit

/-- Embedding of `process_contact`: validate the email (an invalid one is
marked in the store and fails), short-circuit when the Zoho-variant
already-emailed check fires, fetch the website with one retry, run the
content pipeline, create the draft; each failing stage marks the contact
in the store exactly when `is_transient_error` classifies its raw error as
permanent, and a successful draft always marks. -/
def process_contact (env : PCEnv) (store : List (List String))
    (website email access_token : String) : PCOut :=
  if ¬ is_valid_email email then
    { success := false, error := "Invalid email format, skipping: " ++ email,
      token := access_token, store := update_lead_emailed_status store email,
      fetchCalls := 0, draftCalls := 0, exit := .invalidEmail }
  else if Zoho.check_if_already_emailed store email then
    { success := true, error := "Already emailed", token := access_token,
      store := store, fetchCalls := 0, draftCalls := 0, exit := .alreadyEmailed }
  else
    let f := fetch_website_with_retries env.fetchOracle 1
    if ¬ f.success then
      { success := false, error := "Failed to fetch website " ++ website ++ ": " ++ f.error,
        token := access_token,
        store := if is_transient_error f.error then store
                 else update_lead_emailed_status store email,
        fetchCalls := f.calls, draftCalls := 0, exit := .fetchFail f.error }
    else
      match env.customize with
      | .error m =>
          { success := false, error := "Failed to create customized email: " ++ m,
            token := access_token,
            store := if is_transient_error m then store
                     else update_lead_emailed_status store email,
            fetchCalls := f.calls, draftCalls := 0, exit := .customizeFail m }
      | .ok _subjectContent =>
          let d := create_draft_with_http_async env.apiOracle env.refreshOracle
            access_token email env.hasCreds
          if d.success then
            { success := true, error := "", token := d.token,
              store := update_lead_emailed_status store email,
              fetchCalls := f.calls, draftCalls := d.apiCalls, exit := .draftOk }
          else
            { success := false, error := "Failed to create draft: " ++ d.error,
              token := d.token,
              store := if is_transient_error d.error then store
                       else update_lead_emailed_status store email,
              fetchCalls := f.calls, draftCalls := d.apiCalls, exit := .draftFail d.error }

namespace Zoho

/-- Embedding of the per-contact body of
`create_zoho_drafts.create_multiple_drafts` (lines 588-634): skip when the
already-emailed check fires; otherwise a fetch `RequestException` marks the
contact as emailed, a successful draft marks it (inside
`ZohoMailAPI.create_draft`), and any other failure is caught by the outer
handler which also marks it. The function returns the store after the
contact. -/
def processStep (store : List (List String)) (email : String)
    (fetchRes : Except String String) (draftRes : Except String Unit) :
    List (List String) :=
  if check_if_already_emailed store email then store
  else
    match fetchRes with
    | .error _ => update_lead_emailed_status store email
    | .ok _pageContent =>
        match draftRes with
        | .ok _ => update_lead_emailed_status store email
        | .error _ => update_lead_emailed_status store email

end Zoho

/-! ### Claim C1: the contacted-flag discipline -/

/-- Whether a `process_contact` arm writes the contacted mark: a successful
draft and an invalid email always mark; the already-emailed short-circuit
never writes; a failing stage marks exactly when its raw error is
classified permanent. -/
def marksExit : PCExit → Bool
  | .draftOk => true
  | .invalidEmail => true
  | .alreadyEmailed => false
  | .fetchFail e => !is_transient_error e
  | .customizeFail e => !is_transient_error e
  | .draftFail e => !is_transient_error e

/-- C1 counterexample: in the Zoho variant (`create_multiple_drafts`), a
fetch failure whose error is classified transient ("Connection timeout")
still marks the contact as emailed, so the transient-failure arm of the
claimed iff fails there. -/
theorem c1_counterexample :
    Zoho.processStep [["Email", "Emailed?"], ["a@b.com", ""]] "a@b.com"
        (Except.error "Connection timeout") (Except.ok ()) =
      [["Email", "Emailed?"], ["a@b.com", "True"]] ∧
    is_transient_error "Connection timeout" = true := by
  refine ⟨by decide, by decide⟩

/-- C1 (amended, restricted to the gmail pipeline `process_contact`): the
store after a contact attempt is the marked store exactly when the draft
succeeded, the email was structurally invalid (whose error message is
always classified permanent, see the second part), or a stage failed with
an error classified permanent; the already-emailed short-circuit and every
transient-classified failure leave the store unchanged. The Zoho variant
`create_multiple_drafts` instead marks on every non-skipped failure,
transient included (see the counterexample). -/
theorem c1_gmail_marking (env : PCEnv) (store : List (List String))
    (website email access_token : String) :
    ((process_contact env store website email access_token).store =
      if marksExit (process_contact env store website email access_token).exit then
        update_lead_emailed_status store email
      else store)
    ∧ (∀ e : String, is_transient_error ("Invalid email format, skipping: " ++ e) = false) := by
  refine ⟨?_, invalid_email_prefix_is_permanent⟩
  unfold process_contact
  dsimp only
  split
  · simp [marksExit]
  split
  · simp [marksExit]
  split
  · split <;> simp_all [marksExit]
  split
  · split <;> simp_all [marksExit]
  · split
    · simp [marksExit]
    · split <;> simp_all [marksExit]

/-! ### Claims C3 and C4: 503 and 404 responses from the website fetch -/

/-- The fetcher against a server that answers 503 on every attempt: with
`max_retries = 1` (the value `process_contact` passes) both attempts are
used and the call fails with the bare status text "HTTP 503". -/
theorem fetch_all_503 (oracle : Nat → FetchResp)
    (h : ∀ n, ∃ b, oracle n = .http 503 b) :
    fetch_website_with_retries oracle 1 = ⟨false, "", "HTTP 503", 2⟩ := by
  obtain ⟨b0, hb0⟩ := h 0
  obtain ⟨b1, hb1⟩ := h 1
  have hstep : ∀ b attempt, fetchStep (FetchResp.http 503 b) attempt = .retry "HTTP 503" := by
    intro b attempt
    unfold fetchStep
    dsimp only
    rw [if_neg (by decide), if_neg (by decide), if_neg (by decide)]
    exact congrArg FetchStep.retry (by decide)
  unfold fetch_website_with_retries
  simp only [fetchGo, hb0, hb1, hstep]

/-- A 404 on the first attempt ends the fetch at once — one attempt, no
retry whatever the retry bound — with the error "Page not found (404)". -/
theorem fetch_404_immediate (oracle : Nat → FetchResp) (maxRetries : Nat)
    (body : String) (h : oracle 0 = .http 404 body) :
    fetch_website_with_retries oracle maxRetries = ⟨false, "", "Page not found (404)", 1⟩ := by
  have hstep : fetchStep (FetchResp.http 404 body) 0 = .done ⟨false, "", "Page not found (404)", 1⟩ := by
    unfold fetchStep
    dsimp only
    rw [if_neg (by decide), if_pos rfl]
  unfold fetch_website_with_retries
  cases maxRetries with
  | zero => simp only [fetchGo, h, hstep]
  | succ r => simp only [fetchGo, h, hstep]

/-- A concrete environment whose website fetch always answers 503 (the
remaining oracles are never reached in the scenarios that use it). -/
def env503 : PCEnv :=
  { fetchOracle := fun _ => .http 503 "",
    customize := .ok ("subject", "content"),
    apiOracle := fun _ => .http 200 "",
    refreshOracle := fun _ => .ok "tok1",
    hasCreds := false }

/-- C3 counterexample: with the store holding one uncontacted row for
a@b.com and the fetch answering 503 on both attempts, `process_contact`
marks the contact as emailed — the error string is "HTTP 503", which
`is_transient_error` classifies as permanent, against the claimed
transient outcome with the flag unchanged. -/
theorem c3_counterexample :
    (process_contact env503 [["Email", "Emailed?"], ["a@b.com", ""]]
        "https://example.com" "a@b.com" "tok").store =
      [["Email", "Emailed?"], ["a@b.com", "True"]] ∧
    (process_contact env503 [["Email", "Emailed?"], ["a@b.com", ""]]
        "https://example.com" "a@b.com" "tok").exit = .fetchFail "HTTP 503" ∧
    is_transient_error "HTTP 503" = false := by
  refine ⟨by decide, by decide, by decide⟩

/-- C3 (amended): when the fetch answers 503 on every attempt within the
retry bound, the outcome is a failure whose raw error "HTTP 503" the
classifier treats as permanent (no transient pattern names the numeric
code), so the contact IS marked contacted in the store, and no draft API
call is made. -/
theorem c3_all_503_marks_contacted (env : PCEnv) (store : List (List String))
    (website email access_token : String)
    (hvalid : is_valid_email email = true)
    (hnew : Zoho.check_if_already_emailed store email = false)
    (h503 : ∀ n, ∃ b, env.fetchOracle n = .http 503 b) :
    (process_contact env store website email access_token).exit = .fetchFail "HTTP 503" ∧
    (process_contact env store website email access_token).store =
      update_lead_emailed_status store email ∧
    (process_contact env store website email access_token).success = false ∧
    (process_contact env store website email access_token).draftCalls = 0 := by
  have hperm : is_transient_error "HTTP 503" = false := by decide
  unfold process_contact
  rw [fetch_all_503 env.fetchOracle h503]
  simp [hvalid, hnew, hperm]

/-- Witness for C3's amended theorem at a concrete run. -/
theorem c3_all_503_marks_contacted_witness :
    (process_contact env503 [["Email", "Emailed?"], ["b@c.org", ""]]
        "https://example.org" "b@c.org" "tok").store =
      update_lead_emailed_status [["Email", "Emailed?"], ["b@c.org", ""]] "b@c.org" :=
  (c3_all_503_marks_contacted env503 [["Email", "Emailed?"], ["b@c.org", ""]]
    "https://example.org" "b@c.org" "tok" (by decide) (by decide)
    (fun _ => ⟨"", rfl⟩)).2.1

/-- C4: a 404 answer makes the fetcher return the permanent failure
"Page not found (404)" immediately (one attempt, no retry, whatever the
retry bound), and `process_contact` then makes no draft API call, reports
that failure, and the store is the marked store, in which every row for
the email shows contacted. -/
theorem c4_404_immediate_permanent (env : PCEnv) (store : List (List String))
    (website email access_token body : String) (maxRetries : Nat)
    (hvalid : is_valid_email email = true)
    (hnew : Zoho.check_if_already_emailed store email = false)
    (h404 : env.fetchOracle 0 = .http 404 body) :
    fetch_website_with_retries env.fetchOracle maxRetries =
      ⟨false, "", "Page not found (404)", 1⟩ ∧
    (process_contact env store website email access_token).exit =
      .fetchFail "Page not found (404)" ∧
    (process_contact env store website email access_token).draftCalls = 0 ∧
    (process_contact env store website email access_token).fetchCalls = 1 ∧
    (process_contact env store website email access_token).store =
      update_lead_emailed_status store email ∧
    allMarked (process_contact env store website email access_token).store email = true := by
  refine ⟨fetch_404_immediate env.fetchOracle maxRetries body h404, ?_⟩
  have hperm : is_transient_error "Page not found (404)" = false := by decide
  unfold process_contact
  rw [fetch_404_immediate env.fetchOracle 1 body h404]
  simp [hvalid, hnew, hperm, update_marks_all]

/-- Witness for C4 at a concrete run: a 404-answering environment. -/
theorem c4_404_immediate_permanent_witness :
    (process_contact
        { fetchOracle := fun _ => .http 404 "",
          customize := .ok ("s", "c"),
          apiOracle := fun _ => .http 200 "",
          refreshOracle := fun _ => .ok "t", hasCreds := false }
        [["Email", "Emailed?"], ["a@b.com", ""]] "https://example.com" "a@b.com" "tok").exit =
      .fetchFail "Page not found (404)" :=
  (c4_404_immediate_permanent _ _ "https://example.com" "a@b.com" "tok" "" 0
    (by decide) (by decide) rfl).2.1

/-! ### Claim C5: invalid emails
(`create_gmail_drafts.process_contact` lines 576-588 and
`create_multiple_gmail_drafts_async` lines 740-753) -/

/-- Embedding of `email_utils.normalize_url` and of the inline URL
normalization in the orchestrator: prefix `https://` when no scheme is
present. -/
def normalize_url (url : String) : String :=
  if pyStartsWith url "http://" || pyStartsWith url "https://" then url
  else "https://" ++ url

/-- Embedding of the orchestrator's input filter (lines 740-749 of
`create_multiple_gmail_drafts_async`): keep only contacts with a valid
email, normalizing their website; invalid entries are dropped (with a
logged warning). -/
def filtered_contacts (contacts : List (String × String × String)) :
    List (String × String × String) :=
  contacts.filterMap (fun c =>
    if is_valid_email c.2.1 then some (normalize_url c.1, c.2.1, c.2.2) else none)

theorem filtered_contacts_eq (cs : List (String × String × String)) :
    filtered_contacts cs =
      (cs.filter fun c => is_valid_email c.2.1).map
        (fun c => (normalize_url c.1, c.2.1, c.2.2)) := by
  induction cs with
  | nil => rfl
  | cons c cs ih =>
      unfold filtered_contacts at ih ⊢
      rw [List.filterMap_cons, List.filter_cons]
      by_cases h : is_valid_email c.2.1
      · simp only [h, if_pos, List.map_cons]
        rw [ih]
      · simp only [h, Bool.false_eq_true, if_false]
        rw [ih]

theorem filtered_contacts_all_valid (cs : List (String × String × String)) :
    (filtered_contacts cs).all (fun c => is_valid_email c.2.1) = true := by
  rw [List.all_eq_true]
  intro c hc
  unfold filtered_contacts at hc
  obtain ⟨a, -, hsome⟩ := List.mem_filterMap.mp hc
  by_cases hv : is_valid_email a.2.1
  · rw [if_pos hv] at hsome
    cases hsome
    simpa using hv
  · rw [if_neg hv] at hsome
    cases hsome

/-- C5: a contact whose email fails the structural check exits as
InvalidInput at once — zero fetch attempts, zero Gmail API calls — with an
error message classified permanent, and the store is the marked store in
which every row for that email shows contacted; and the orchestrator's
filter keeps exactly the valid-email entries (websites normalized),
dropping invalid ones. -/
theorem c5_invalid_input (env : PCEnv) (store : List (List String))
    (website email access_token : String)
    (hinvalid : is_valid_email email = false) :
    ((process_contact env store website email access_token).exit = .invalidEmail ∧
     (process_contact env store website email access_token).success = false ∧
     (process_contact env store website email access_token).fetchCalls = 0 ∧
     (process_contact env store website email access_token).draftCalls = 0 ∧
     (process_contact env store website email access_token).store =
       update_lead_emailed_status store email ∧
     allMarked (process_contact env store website email access_token).store email = true ∧
     (process_contact env store website email access_token).error =
       "Invalid email format, skipping: " ++ email ∧
     is_transient_error (process_contact env store website email access_token).error = false)
    ∧ (∀ cs : List (String × String × String),
        filtered_contacts cs =
          (cs.filter fun c => is_valid_email c.2.1).map
            (fun c => (normalize_url c.1, c.2.1, c.2.2)) ∧
        (filtered_contacts cs).all (fun c => is_valid_email c.2.1) = true) := by
  constructor
  · unfold process_contact
    simp [hinvalid, update_marks_all, invalid_email_prefix_is_permanent]
  · intro cs
    exact ⟨filtered_contacts_eq cs, filtered_contacts_all_valid cs⟩

/-- Witness for C5 at the spec's concrete invalid email "not-an-email". -/
theorem c5_invalid_input_witness :
    (process_contact env503 [["Email", "Emailed?"], ["not-an-email", ""]]
        "https://example.com" "not-an-email" "tok").exit = .invalidEmail :=
  (c5_invalid_input env503 [["Email", "Emailed?"], ["not-an-email", ""]]
    "https://example.com" "not-an-email" "tok" (by decide)).1.1

/-! ### Claim C6: 401 handling in the Gmail dispatcher -/

/-- A Gmail API that answers 401 with body "x" on every call. -/
def api401 : Nat → ApiResp := fun _ => .http 401 "x"

/-- A refresh endpoint that issues tok1, tok2, ... on successive calls. -/
def refreshSeq : Nat → Except String String := fun n => .ok ("tok" ++ toString (n + 1))

/-- C6 counterexample: with credentials available and the API answering 401
on every call, the dispatcher refreshes and retries TWICE (three API calls,
two refreshes), not exactly once as claimed, before returning the
token-expired error. -/
theorem c6_counterexample :
    create_draft_with_http_async api401 refreshSeq "tok0" "a@b.com" true =
      ⟨false, tokenExpiredMsg ("Error creating draft: " ++ toString 401 ++ " - " ++ "x"),
       "tok2", 3, 2⟩ := by
  decide

/-- A 401 step with budget, credentials and a working refresh endpoint:
refresh and move to the next attempt with the new token. -/
theorem draftGo_401_refresh_step (api : Nat → ApiResp)
    (refreshO : Nat → Except String String) (r : Nat) (token : String)
    (calls refreshes : Nat) (text tok : String)
    (hapi : api calls = ApiResp.http 401 text)
    (htok : refreshO refreshes = Except.ok tok) :
    draftGo api refreshO true (r + 1) token calls refreshes =
      draftGo api refreshO true r tok (calls + 1) (refreshes + 1) := by
  simp only [draftGo]
  rw [hapi]
  dsimp only
  rw [if_neg (by decide), if_pos (Or.inl rfl), if_pos trivial, htok]

/-- A 401 with no credentials: the token-expired error at once. -/
theorem draftGo_401_nocreds (api : Nat → ApiResp)
    (refreshO : Nat → Except String String) (r : Nat) (token : String)
    (calls refreshes : Nat) (text : String)
    (hapi : api calls = ApiResp.http 401 text) :
    draftGo api refreshO false (r + 1) token calls refreshes =
      ⟨false, tokenExpiredMsg ("Error creating draft: 401 - " ++ text), token,
       calls + 1, refreshes⟩ := by
  simp only [draftGo]
  rw [hapi]
  dsimp only
  rw [if_neg (by decide), if_pos (Or.inl rfl), if_neg (by decide)]
  rw [show ("Error creating draft: " ++ toString 401 ++ " - " : String) =
    "Error creating draft: 401 - " from by decide]

/-- A 401 with the retry budget exhausted: the token-expired error. -/
theorem draftGo_401_exhausted (api : Nat → ApiResp)
    (refreshO : Nat → Except String String) (hasCreds : Bool) (token : String)
    (calls refreshes : Nat) (text : String)
    (hapi : api calls = ApiResp.http 401 text) :
    draftGo api refreshO hasCreds 0 token calls refreshes =
      ⟨false, tokenExpiredMsg ("Error creating draft: 401 - " ++ text), token,
       calls + 1, refreshes⟩ := by
  simp only [draftGo]
  rw [hapi]
  dsimp only
  rw [if_neg (by decide), if_pos (Or.inl rfl)]
  rw [show ("Error creating draft: " ++ toString 401 ++ " - " : String) =
    "Error creating draft: 401 - " from by decide]

/-- C6 (amended): on a 401 with no refresh credentials the dispatcher
returns the token-expired error after a single API call with no refresh;
with credentials and the API answering 401 persistently it refreshes and
retries up to twice (retry budget `max_api_retries = 2`), so three API
calls and two refreshes happen before the token-expired error is
returned. -/
theorem c6_401_refresh_budget :
    (∀ (api : Nat → ApiResp) (refreshO : Nat → Except String String)
       (token toEmail text : String), is_valid_email toEmail = true →
       api 0 = ApiResp.http 401 text →
       create_draft_with_http_async api refreshO token toEmail false =
         ⟨false, tokenExpiredMsg ("Error creating draft: 401 - " ++ text), token, 1, 0⟩)
  ∧ (∀ (api : Nat → ApiResp) (refreshO : Nat → Except String String)
       (token toEmail : String), is_valid_email toEmail = true →
       (∀ n, ∃ t, api n = ApiResp.http 401 t) →
       (∀ n, ∃ tok, refreshO n = Except.ok tok) →
       (create_draft_with_http_async api refreshO token toEmail true).success = false ∧
       (create_draft_with_http_async api refreshO token toEmail true).apiCalls = 3 ∧
       (create_draft_with_http_async api refreshO token toEmail true).refreshes = 2) := by
  constructor
  · intro api refreshO token toEmail text hvalid hapi
    unfold create_draft_with_http_async
    rw [hvalid]
    rw [if_neg (by simp)]
    show draftGo api refreshO false (1 + 1) token 0 0 = _
    rw [draftGo_401_nocreds api refreshO 1 token 0 0 text hapi]
  · intro api refreshO token toEmail hvalid hapi hrefresh
    obtain ⟨t0, ht0⟩ := hapi 0
    obtain ⟨t1, ht1⟩ := hapi 1
    obtain ⟨t2, ht2⟩ := hapi 2
    obtain ⟨tok0, htok0⟩ := hrefresh 0
    obtain ⟨tok1, htok1⟩ := hrefresh 1
    have hrun : create_draft_with_http_async api refreshO token toEmail true =
        ⟨false, tokenExpiredMsg ("Error creating draft: 401 - " ++ t2), tok1, 3, 2⟩ := by
      unfold create_draft_with_http_async
      rw [hvalid]
      rw [if_neg (by simp)]
      show draftGo api refreshO true (1 + 1) token 0 0 = _
      rw [draftGo_401_refresh_step api refreshO 1 token 0 0 t0 tok0 ht0 htok0]
      show draftGo api refreshO true (0 + 1) tok0 1 1 = _
      rw [draftGo_401_refresh_step api refreshO 0 tok0 1 1 t1 tok1 ht1 htok1]
      show draftGo api refreshO true 0 tok1 2 2 = _
      rw [draftGo_401_exhausted api refreshO true tok1 2 2 t2 ht2]
    refine ⟨?_, ?_, ?_⟩ <;> rw [hrun]

/-- Witness for C6's amended theorem at a concrete no-credentials call. -/
theorem c6_401_refresh_budget_witness :
    create_draft_with_http_async api401 refreshSeq "tok0" "a@b.com" false =
      ⟨false, tokenExpiredMsg ("Error creating draft: 401 - " ++ "x"), "tok0", 1, 0⟩ :=
  c6_401_refresh_budget.1 api401 refreshSeq "tok0" "a@b.com" "x" (by decide) rfl

/-! ### Claim C7: duplicate-row consolidation -/

/-- C7 counterexample: the already-emailed check the gmail pipeline actually
uses is the Zoho-variant one, which returns true WITHOUT consolidating.
With two rows for c@d.com, one contacted and one not, the run
short-circuits as success and leaves the store unchanged — so after the
run one row for the email is marked and another is not. -/
theorem c7_counterexample :
    (process_contact env503 [["Email", "Emailed?"], ["c@d.com", "True"], ["c@d.com", ""]]
        "https://example.com" "c@d.com" "tok").store =
      [["Email", "Emailed?"], ["c@d.com", "True"], ["c@d.com", ""]] ∧
    (process_contact env503 [["Email", "Emailed?"], ["c@d.com", "True"], ["c@d.com", ""]]
        "https://example.com" "c@d.com" "tok").success = true ∧
    allMarked [["Email", "Emailed?"], ["c@d.com", "True"], ["c@d.com", ""]] "c@d.com" = false := by
  refine ⟨by decide, by decide, by decide⟩

/-- C7 (amended): the consolidating behaviour lives in
`email_utils.check_if_already_emailed`: on a rectangular sheet holding some
truthy-marked row for the email, that check returns true and its write
leaves every row for the email marked "True"; and the store write
`update_lead_emailed_status` always marks all rows for the email (no
partial consolidation on writes). The check the gmail pipeline imports
(the Zoho variant) returns true without writing, so a pre-existing
partially-consolidated store stays partial across a run (see the
counterexample). -/
theorem someTruthyMarked_cons (headers : List String) (rows : List (List String))
    (email : String) :
    someTruthyMarked (headers :: rows) email =
      (match headers.indexOf? "Email", headers.indexOf? "Emailed?" with
       | some ei, some di =>
           rows.any (fun r =>
             (r.getD ei "" == email) && EmailUtils.emailedTruthy (r.getD di ""))
       | _, _ => false) := rfl

theorem c7_consolidation (headers : List String) (rows : List (List String))
    (email : String)
    (hrect : ∀ r ∈ rows, r.length = headers.length)
    (hsome : someTruthyMarked (headers :: rows) email = true) :
    (EmailUtils.check_if_already_emailed (headers :: rows) email).1 = true ∧
    allMarked (EmailUtils.check_if_already_emailed (headers :: rows) email).2 email = true ∧
    (∀ (data : List (List String)) (e : String),
      allMarked (update_lead_emailed_status data e) e = true) := by
  rw [someTruthyMarked_cons] at hsome
  cases he : headers.indexOf? "Email" with
  | none => rw [he] at hsome; simp at hsome
  | some ei =>
  cases hd : headers.indexOf? "Emailed?" with
  | none => rw [he, hd] at hsome; simp at hsome
  | some di =>
  rw [he, hd] at hsome
  rw [List.any_eq_true] at hsome
  obtain ⟨r0, hr0, hprop⟩ := hsome
  rw [Bool.and_eq_true] at hprop
  obtain ⟨hmatch0, htruthy0⟩ := hprop
  have hne : rows.isEmpty = false := by
    cases rows with
    | nil => cases hr0
    | cons a as => rfl
  have hmem : r0 ∈ rows.filter (fun r => r.getD ei "" == email) :=
    List.mem_filter.mpr ⟨hr0, hmatch0⟩
  have hfilter_ne : (rows.filter (fun r => r.getD ei "" == email)).isEmpty = false := by
    cases hfe : rows.filter (fun r => r.getD ei "" == email) with
    | nil => rw [hfe] at hmem; cases hmem
    | cons a as => rfl
  have hany : ((rows.filter (fun r => r.getD ei "" == email)).any
      (fun r => EmailUtils.emailedTruthy (r.getD di ""))) = true := by
    rw [List.any_eq_true]
    exact ⟨r0, hmem, htruthy0⟩
  have hcheck : EmailUtils.check_if_already_emailed (headers :: rows) email =
      (true, headers :: rows.map (fun r =>
        if r.getD ei "" == email then r.set di "True" else r)) := by
    unfold EmailUtils.check_if_already_emailed
    dsimp only
    rw [hne, if_neg (by decide)]
    rw [he]
    dsimp only
    rw [hfilter_ne, if_neg (by decide)]
    rw [hd]
    dsimp only
    rw [hany, if_pos rfl]
  refine ⟨by rw [hcheck], ?_, fun data e => update_marks_all data e⟩
  rw [hcheck]
  unfold allMarked
  dsimp only
  rw [he, hd]
  dsimp only
  rw [List.all_eq_true]
  intro r' hr'
  obtain ⟨r, hrmem, hreq⟩ := List.mem_map.mp hr'
  by_cases hm : r.getD ei "" == email
  · rw [if_pos hm] at hreq
    subst hreq
    have hdi : di < r.length := by
      rw [hrect r hrmem]
      exact indexOf?_lt_length hd
    have : (r.set di "True").getD di "" = "True" := by
      rw [List.getD_eq_getElem?_getD, List.getElem?_set_self (by simpa using hdi)]
      rfl
    rw [this]
    simp
  · rw [if_neg hm] at hreq
    subst hreq
    simp only [Bool.or_eq_true, Bool.not_eq_true']
    left
    simpa using hm

/-- Witness for C7's amended theorem at the spec's scenario D store. -/
theorem c7_consolidation_witness :
    (EmailUtils.check_if_already_emailed
        [["Email", "Emailed?"], ["c@d.com", "True"], ["c@d.com", ""]] "c@d.com").1 = true :=
  (c7_consolidation ["Email", "Emailed?"] [["c@d.com", "True"], ["c@d.com", ""]]
    "c@d.com" (by decide) (by decide)).1

/-! ### The content pipeline (`email_utils.py` lines 246-462 and
`app/llm/email_template.py`)

LLM calls are modelled by an oracle value per stage: the provider answered
and the pydantic adapter parsed it, the provider answered but parsing
raised, or the provider returned None. -/

/-- Modelled from the spec: the record types of `app/core/models.py` are
imported by `email_utils` but the module is absent from the source tree.
`WebsiteAnalysis` follows spec section 3: summary, business category,
business name, key features, community aspects, optional contact person. -/
structure WebsiteAnalysis where
  summary : String
  business_type : String
  business_name : String
  key_features : List String
  community_aspects : List String
  contact_person : Option String
  deriving Repr, DecidableEq

/-- Modelled from the spec: `TemplateCustomization` of the absent
`app/core/models.py`, with the fields the pipeline code reads and writes —
safe-name token, optional custom subject line, intro, main pitch, key
points, closing, specific references (spec sections 3 and 4.2). -/
structure TemplateCustomization where
  safe_name : String
  subject_line : Option String
  custom_intro : String
  custom_main_pitch : String
  key_points : List String
  custom_closing : String
  specific_references : List String
  deriving Repr, DecidableEq

/-- An email template: the subject as a function of the business name
(embedding the `subject.format(business_name=...)` format string) and the
main-pitch HTML block. -/
structure EmailTemplate where
  subject : String → String
  main_pitch : String

/-- Modelled from the spec: the "community" entry of `EMAIL_TEMPLATES`.
`create_customized_email` indexes `EMAIL_TEMPLATES["community"]`, but the
`email_template.py` in the source tree is a stale variant without that
entry (its callers also import a `DEFAULT_EMAIL_TEMPLATES` it does not
define). Per spec section 4.2 the subject is a template default
interpolated with the business name; the shape follows the default
template `app.py` creates for new template types. -/
def communityTemplate : EmailTemplate :=
  { subject := fun business_name => "Community Platform for " ++ business_name,
    main_pitch := "<p style=\"margin: 0 0 1em 0;\">Our platform could help create a <span style=\"font-weight: bold;\">vibrant online community</span> around your business!</p>" }

/-- Embedding of the `EMAIL_TEMPLATES` dictionary (subjects and main
pitches; the `extra_context` values only feed LLM prompts and never reach
the produced email). The eleven static entries come from
`email_template.py`; "community" is the spec-modelled entry above. -/
def EMAIL_TEMPLATES (key : String) : Option EmailTemplate :=
  if key = "coworking" then
    some ⟨fun bn => "Digital Third Place for " ++ bn,
      "<p style=\"margin: 0 0 1em 0;\">With Zakaya, we could create a <span style=\"font-weight: bold;\">digital third place</span> for your coworking community that complements your physical space!</p>"⟩
  else if key = "event_space" then
    some ⟨fun bn => "Community Platform for " ++ bn ++ " Events",
      "<p style=\"margin: 0 0 1em 0;\">Zakaya could help create a <span style=\"font-weight: bold;\">vibrant online community</span> around your events and venue!</p>"⟩
  else if key = "community_center" then
    some ⟨fun bn => "Digital Community Hub for " ++ bn,
      "<p style=\"margin: 0 0 1em 0;\">Zakaya could help extend your community's reach with a <span style=\"font-weight: bold;\">dedicated digital space</span> that brings people together!</p>"⟩
  else if key = "fitness_center" then
    some ⟨fun bn => "Digital Fitness Community for " ++ bn,
      "<p style=\"margin: 0 0 1em 0;\">Zakaya could transform your fitness center into a <span style=\"font-weight: bold;\">24/7 motivational community</span> that keeps members engaged between workouts!</p>"⟩
  else if key = "art_studio" then
    some ⟨fun bn => "Creative Community Platform for " ++ bn,
      "<p style=\"margin: 0 0 1em 0;\">Zakaya could help build an <span style=\"font-weight: bold;\">inspiring creative community</span> that connects your artists beyond the studio!</p>"⟩
  else if key = "brewery" then
    some ⟨fun bn => "Craft Beer Community for " ++ bn,
      "<p style=\"margin: 0 0 1em 0;\">Zakaya could help create a <span style=\"font-weight: bold;\">passionate community</span> of craft beer enthusiasts around your brewery!</p>"⟩
  else if key = "music_venue" then
    some ⟨fun bn => "Music Community Platform for " ++ bn,
      "<p style=\"margin: 0 0 1em 0;\">Zakaya could help build an <span style=\"font-weight: bold;\">engaged music community</span> that keeps the energy going between shows!</p>"⟩
  else if key = "wellness_center" then
    some ⟨fun bn => "Wellness Community Hub for " ++ bn,
      "<p style=\"margin: 0 0 1em 0;\">Zakaya could help create a <span style=\"font-weight: bold;\">supportive wellness community</span> that nurtures growth beyond sessions!</p>"⟩
  else if key = "bookstore" then
    some ⟨fun bn => "Reader Community Platform for " ++ bn,
      "<p style=\"margin: 0 0 1em 0;\">Zakaya could help create a <span style=\"font-weight: bold;\">vibrant reading community</span> that extends beyond your shelves!</p>"⟩
  else if key = "farm" then
    some ⟨fun bn => "Farm Community Hub for " ++ bn,
      "<p style=\"margin: 0 0 1em 0;\">Zakaya could help cultivate a <span style=\"font-weight: bold;\">thriving farm community</span> that connects people to local agriculture!</p>"⟩
  else if key = "community_garden" then
    some ⟨fun bn => "Digital Garden Community for " ++ bn,
      "<p style=\"margin: 0 0 1em 0;\">Zakaya could help grow a <span style=\"font-weight: bold;\">flourishing garden community</span> that connects green thumbs year-round!</p>"⟩
  else if key = "community" then some communityTemplate
  else none

/-- Embedding of `BASE_EMAIL_TEMPLATE.format(...)`: the fixed HTML scaffold
with the six values interpolated at their placeholders. -/
def BASE_EMAIL_TEMPLATE_render (safe_name custom_intro main_pitch key_points custom_closing lead_url : String) : String :=
  "\n<div style=\"font-family: Calibri, 'Segoe UI', Arial, sans-serif; font-size: 12pt; line-height: 1.2; color: #000000;\">\n    <p style=\"margin: 0 0 1em 0;\">Hello!!</p>\n\n    "
    ++ custom_intro ++ "\n\n    " ++ main_pitch
    ++ "\n\n    <ul style=\"margin: 0 0 1em 0; padding-left: 20px;\">\n        "
    ++ key_points ++ "\n    </ul>\n\n    " ++ custom_closing
    ++ "\n\n    <p style=\"margin: 0 0 1em 0;\">Best,<br><br>\n    â€”<br><br>\n    Matt Toronto, Founder<br>\n    <a href=\"https://zakaya.io?utm_channel=lead_email&utm_source="
    ++ safe_name
    ++ "\" style=\"font-weight: bold; text-decoration: underline; color: #0066cc;\">Zakaya</a> | <a href=\"https://twitter.com/matttoronto\" style=\"font-weight: bold; text-decoration: underline; color: #0066cc;\">Twitter</a></p>\n\n    <a href=\""
    ++ lead_url ++ "\" style=\"font-weight: bold; text-decoration: underline; color: #0066cc;\">"
    ++ lead_url ++ "</a>\n</div>\n"

/-- Embedding of `email_template.get_email_content` (lines 99-130): wrap
un-styled intro/closing in a default paragraph style, upgrade
highlight-class spans in the key points when no bold span is present, and
render the base template with the selected template's main pitch. (The
pipeline only ever passes "community"; an unknown key would raise KeyError
in Python, modelled as the empty string.) -/
def get_email_content (template_key safe_name custom_intro key_points custom_closing lead_url : String) : String :=
  let custom_intro := if pyStartsWith custom_intro "<p style=" then custom_intro
    else "<p style=\"margin: 0 0 1em 0;\">" ++ custom_intro ++ "</p>"
  let custom_closing := if pyStartsWith custom_closing "<p style=" then custom_closing
    else "<p style=\"margin: 0 0 1em 0;\">" ++ custom_closing ++ "</p>"
  let key_points := if containsStr key_points "<span style=\"font-weight: bold;\">" then key_points
    else pyReplace key_points "<span class='highlight'>" "<span style=\"font-weight: bold;\">"
  match EMAIL_TEMPLATES template_key with
  | some t => BASE_EMAIL_TEMPLATE_render safe_name custom_intro t.main_pitch key_points custom_closing lead_url
  | none => ""

/-- What an LLM-backed stage can produce: a parsed value, a response the
adapter failed to parse (an exception, caught), or a None response. -/
inductive LlmResult (α : Type) where
  | success (value : α)
  | parseFail
  | noResponse

/-- The netloc `urlparse` extracts from the scheme-bearing URLs this
pipeline passes (the orchestrator prefixes `https://` beforehand): the text
between `//` and the next `/`, `?` or `#`; empty when no scheme is
present, as `urlparse` gives for bare domains. -/
def netlocOf (url : String) : String :=
  if pyStartsWith url "http://" then
    ⟨(url.data.drop 7).takeWhile (fun c => !(c == '/' || c == '?' || c == '#'))⟩
  else if pyStartsWith url "https://" then
    ⟨(url.data.drop 8).takeWhile (fun c => !(c == '/' || c == '?' || c == '#'))⟩
  else ""

/-- Python `url.split("//")`. -/
def splitSlashSlash : List Char → List (List Char)
  | [] => [[]]
  | '/' :: '/' :: rest => [] :: splitSlashSlash rest
  | c :: rest =>
      match splitSlashSlash rest with
      | [] => [[c]]
      | h :: t => (c :: h) :: t

/-- Python `url.split("//")[-1].split("/")[0]`, the crude host extraction
the fallback paths use. -/
def naiveHost (url : String) : String :=
  ⟨(splitOnChar '/' ((splitSlashSlash url.data).getLastD [])).headD []⟩

/-- The URL-derived fallback business name of
`analyze_website_content_with_notes` (lines 338-347): the first label of
the netloc (after dropping a leading `www`), hyphens replaced by spaces and
each word capitalized; when dropping `www` leaves nothing, the IndexError
lands in the except branch, which falls back to the crude host. -/
def urlDerivedBusinessName (url : String) : String :=
  match pySplit (netlocOf url) '.' with
  | [] => naiveHost url
  | first :: rest =>
      if first = "www" then
        match rest with
        | [] => naiveHost url
        | d :: _ => pyJoin " " ((pySplit d '-').map pyCapitalize)
      else pyJoin " " ((pySplit first '-').map pyCapitalize)

/-- Embedding of `analyze_website_content_with_notes` (lines 334-397): the
parsed analysis when the LLM stage succeeds, else the default analysis
with the URL-derived business name. (Truncating the page content to 8000
characters only shapes the prompt and is not modelled.) -/
def analyze_website_content_with_notes (llm : LlmResult WebsiteAnalysis) (url : String) : WebsiteAnalysis :=
  match llm with
  | .success a => a
  | .parseFail =>
      { summary := "Could not analyze website", business_type := "unknown",
        business_name := urlDerivedBusinessName url, key_features := [],
        community_aspects := [], contact_person := none }
  | .noResponse =>
      { summary := "Could not analyze website", business_type := "unknown",
        business_name := urlDerivedBusinessName url, key_features := [],
        community_aspects := [], contact_person := none }

/-- The default customization of `customize_template_with_notes`'s except
branch (lines 449-462). -/
def defaultCustomization (analysis : WebsiteAnalysis) : TemplateCustomization :=
  { safe_name := pyReplace (pyLower analysis.business_name) " " "-",
    subject_line := some (communityTemplate.subject analysis.business_name),
    custom_intro := "Your organization helps build meaningful connections in your community.",
    custom_main_pitch := communityTemplate.main_pitch,
    key_points :=
      [ "<span class='highlight'>Text and voice rooms</span> where members can share experiences and connect",
        "<span class='highlight'>Event calendar</span> to help members experience activities together",
        "<span class='highlight'>Buddy matching</span> to help members find others with shared interests",
        "<span class='highlight'>Simple tools</span> for staff to engage with the community" ],
    custom_closing := "Let me know if you'd like to see how this could work for your community.",
    specific_references := [] }

/-- Embedding of `customize_template_with_notes` (lines 399-462): a parsed
response is used (with the template's main pitch substituted when its own
is empty), a parse exception is caught and yields the default
customization, and a None response falls through the function's
if-without-else and RETURNS None — a genuine gap in the source this
Option models. -/
def customize_template_with_notes (llm : LlmResult TemplateCustomization)
    (analysis : WebsiteAnalysis) : Option TemplateCustomization :=
  match llm with
  | .success c =>
      some { c with custom_main_pitch :=
        if c.custom_main_pitch = "" then communityTemplate.main_pitch else c.custom_main_pitch }
  | .parseFail => some (defaultCustomization analysis)
  | .noResponse => none

/-- Embedding of `refine_template_customization` (lines 201-244): the
refined sections when the LLM stage parses, otherwise the input unchanged
(refinement is best-effort). -/
def refine_template_customization (llm : LlmResult TemplateCustomization)
    (customization : TemplateCustomization) : TemplateCustomization :=
  match llm with
  | .success c => c
  | .parseFail => customization
  | .noResponse => customization

/-- The three LLM stages a `create_customized_email` call consumes. -/
structure PipelineEnv where
  analyzeRes : LlmResult WebsiteAnalysis
  customizeRes : LlmResult TemplateCustomization
  refineRes : LlmResult TemplateCustomization

/-- Embedding of `create_customized_email` (lines 246-332): analyze,
customize, refine, render; a custom subject line overrides the template
default when non-empty. When the customize stage returned None, the
`refine_template_customization` call raises before its try block (its
message list evaluates `customization.model_dump_json()`), the outer
handler catches it, and the fixed default email with the crude-host
business name is produced instead. -/
def create_customized_email (env : PipelineEnv) (website _email _page_content _notes : String) :
    String × String :=
  let analysis := analyze_website_content_with_notes env.analyzeRes website
  match customize_template_with_notes env.customizeRes analysis with
  | some customization =>
      let refined := refine_template_customization env.refineRes customization
      let key_points_html :=
        String.join (refined.key_points.map (fun point => "<li>" ++ point ++ "</li>"))
      let content := get_email_content "community" refined.safe_name refined.custom_intro
        key_points_html refined.custom_closing website
      let subject :=
        match refined.subject_line with
        | some s => if s = "" then communityTemplate.subject analysis.business_name else s
        | none => communityTemplate.subject analysis.business_name
      (subject, content)
  | none =>
      let safe_name := pyReplace (naiveHost website) "." "-"
      let business_name := pyTitle (pyReplace ⟨(splitOnChar '.' (naiveHost website).data).headD []⟩ "-" " ")
      let key_points_html :=
        String.join
          (([ "<span class='highlight'>Text and voice rooms</span> where members can share experiences and connect",
              "<span class='highlight'>Event calendar</span> to keep everyone informed about activities",
              "<span class='highlight'>Buddy matching</span> to help members find mentors and peers",
              "<span class='highlight'>Simple tools</span> for staff to engage with the community" ]).map
            (fun point => "<li style='margin-bottom: 0.5em;'>" ++ point ++ "</li>"))
      let content := get_email_content "community" safe_name
        "<p style='margin: 0 0 1em 0;'>Your organization helps build meaningful connections in your community.</p>"
        key_points_html
        "<p style='margin: 0 0 1em 0;'>Let me know if you'd like to see how this could work for your community.</p>"
        website
      (communityTemplate.subject business_name, content)

/-! ### Claim C8: pipeline fallback on a failed analyze stage -/

theorem string_append_ne_empty_left (s t : String) (h : s ≠ "") : s ++ t ≠ "" := by
  intro he
  have hd := congrArg String.data he
  rw [String.data_append] at hd
  rw [List.append_eq_nil] at hd
  exact h (String.ext hd.1)

theorem base_render_ne_empty (a b c d e f : String) :
    BASE_EMAIL_TEMPLATE_render a b c d e f ≠ "" := by
  unfold BASE_EMAIL_TEMPLATE_render
  repeat apply string_append_ne_empty_left
  decide

theorem get_email_content_community_ne_empty (safe_name ci kp cc url : String) :
    get_email_content "community" safe_name ci kp cc url ≠ "" := by
  unfold get_email_content
  dsimp only
  rw [show EMAIL_TEMPLATES "community" = some communityTemplate from rfl]
  dsimp only
  exact base_render_ne_empty _ _ _ _ _ _

theorem community_subject_ne_empty (bn : String) : communityTemplate.subject bn ≠ "" := by
  unfold communityTemplate
  exact string_append_ne_empty_left _ _ (by decide)

/-- C8: when the LLM provider returns None for the analyze stage, the
analysis used is the fallback one whose business name is derived from the
URL's domain (hyphens to spaces, each word capitalized — evaluated on a
concrete URL in the second part); and for every combination of LLM-stage
outcomes — the customize-stage None gap included — the pipeline returns a
non-empty subject and a non-empty HTML body (it is a total function, so it
never raises). -/
theorem c8_pipeline_fallback :
    (∀ url : String, analyze_website_content_with_notes LlmResult.noResponse url =
      { summary := "Could not analyze website", business_type := "unknown",
        business_name := urlDerivedBusinessName url, key_features := [],
        community_aspects := [], contact_person := none })
  ∧ urlDerivedBusinessName "https://www.my-cool-site.com/about" = "My Cool Site"
  ∧ (∀ (env : PipelineEnv) (website email page_content notes : String),
      (create_customized_email env website email page_content notes).1 ≠ "" ∧
      (create_customized_email env website email page_content notes).2 ≠ "") := by
  refine ⟨fun _ => rfl, by decide, ?_⟩
  intro env website email page_content notes
  unfold create_customized_email
  dsimp only
  cases hc : customize_template_with_notes env.customizeRes
      (analyze_website_content_with_notes env.analyzeRes website) with
  | none =>
      dsimp only
      exact ⟨community_subject_ne_empty _, get_email_content_community_ne_empty _ _ _ _ _⟩
  | some customization =>
      dsimp only
      constructor
      · cases hs : (refine_template_customization env.refineRes customization).subject_line with
        | none =>
            dsimp only
            exact community_subject_ne_empty _
        | some s =>
            dsimp only
            by_cases hse : s = ""
            · rw [if_pos hse]
              exact community_subject_ne_empty _
            · rw [if_neg hse]
              exact hse
      · exact get_email_content_community_ne_empty _ _ _ _ _

/-- Witness for C8 at a concrete environment in which every LLM stage
returns None. -/
theorem c8_pipeline_fallback_witness :
    (create_customized_email
        ⟨LlmResult.noResponse, LlmResult.noResponse, LlmResult.noResponse⟩
        "https://my-cool-site.com" "a@b.com" "" "").1 ≠ "" :=
  (c8_pipeline_fallback.2.2
    ⟨LlmResult.noResponse, LlmResult.noResponse, LlmResult.noResponse⟩
    "https://my-cool-site.com" "a@b.com" "" "").1

/-! ### Claim C9: the concurrency bound

The orchestrator creates `asyncio.Semaphore(MAX_CONCURRENT_WORKERS)` and
every `process_contact` body runs entirely inside `async with semaphore`
(lines 565-574 and 755-756), so a per-contact pipeline (and hence its
website fetch) is in flight exactly while its task holds the semaphore.
The cooperative scheduler is modelled as an interleaving of atomic
acquire/release transitions over the task pool; the semaphore's counter
semantics (`avail` decremented on a successful acquire, acquire blocked at
zero, incremented on release) is asyncio's. -/

/-- The phase of one per-contact task: not yet started, holding the
semaphore (the whole `process_contact` body, the fetch included), or
finished. -/
inductive TaskPhase where
  | pending
  | running
  | done
  deriving Repr, DecidableEq

/-- The scheduler state: the semaphore's free count and each task's phase. -/
structure SemState where
  avail : Nat
  tasks : List TaskPhase
  deriving Repr, DecidableEq

/-- How many tasks hold the semaphore (pipelines in flight). -/
def countRunning : List TaskPhase → Nat
  | [] => 0
  | TaskPhase.running :: rest => countRunning rest + 1
  | _ :: rest => countRunning rest

/-- One scheduler transition: a pending task acquires the semaphore when a
permit is free, or a running task finishes and releases it. -/
inductive SemStep : SemState → SemState → Prop where
  | acquire (s : SemState) (i : Nat) (hi : i < s.tasks.length)
      (hp : s.tasks.get ⟨i, hi⟩ = TaskPhase.pending) (ha : s.avail ≠ 0) :
      SemStep s ⟨s.avail - 1, s.tasks.set i TaskPhase.running⟩
  | release (s : SemState) (i : Nat) (hi : i < s.tasks.length)
      (hp : s.tasks.get ⟨i, hi⟩ = TaskPhase.running) :
      SemStep s ⟨s.avail + 1, s.tasks.set i TaskPhase.done⟩

/-- The start of a run: `Semaphore(k)` fresh, `n` tasks not yet started. -/
def initState (k n : Nat) : SemState := ⟨k, List.replicate n TaskPhase.pending⟩

/-- States a run with concurrency limit `k` and batch size `n` can reach. -/
inductive Reachable (k n : Nat) : SemState → Prop where
  | init : Reachable k n (initState k n)
  | step {s t : SemState} : Reachable k n s → SemStep s t → Reachable k n t

theorem countRunning_replicate_pending (n : Nat) :
    countRunning (List.replicate n TaskPhase.pending) = 0 := by
  induction n with
  | zero => rfl
  | succ m ih => simpa [List.replicate, countRunning] using ih

theorem countRunning_set_running {tasks : List TaskPhase} {i : Nat}
    (hi : i < tasks.length) (hp : tasks.get ⟨i, hi⟩ = TaskPhase.pending) :
    countRunning (tasks.set i TaskPhase.running) = countRunning tasks + 1 := by
  induction tasks generalizing i with
  | nil => exact absurd hi (Nat.not_lt_zero i)
  | cons t ts ih =>
      cases i with
      | zero =>
          have : t = TaskPhase.pending := hp
          subst this
          rfl
      | succ j =>
          have hj : j < ts.length := Nat.lt_of_succ_lt_succ hi
          have hpj : ts.get ⟨j, hj⟩ = TaskPhase.pending := hp
          cases t <;> simpa [countRunning, List.set] using ih hj hpj

theorem countRunning_set_done {tasks : List TaskPhase} {i : Nat}
    (hi : i < tasks.length) (hp : tasks.get ⟨i, hi⟩ = TaskPhase.running) :
    countRunning tasks = countRunning (tasks.set i TaskPhase.done) + 1 := by
  induction tasks generalizing i with
  | nil => exact absurd hi (Nat.not_lt_zero i)
  | cons t ts ih =>
      cases i with
      | zero =>
          have : t = TaskPhase.running := hp
          subst this
          rfl
      | succ j =>
          have hj : j < ts.length := Nat.lt_of_succ_lt_succ hi
          have hpj : ts.get ⟨j, hj⟩ = TaskPhase.running := hp
          cases t <;> simpa [countRunning, List.set] using ih hj hpj

/-- The semaphore invariant: permits in flight plus permits free equal the
configured limit. -/
theorem sem_invariant {k n : Nat} {s : SemState} (h : Reachable k n s) :
    countRunning s.tasks + s.avail = k := by
  induction h with
  | init => simpa [initState] using countRunning_replicate_pending n
  | step _ hstep ih =>
      cases hstep with
      | acquire i hi hp ha =>
          dsimp only
          rw [countRunning_set_running hi hp]
          omega
      | release i hi hp =>
          dsimp only
          have := countRunning_set_done hi hp
          omega

/-- C9: in every state reachable by a run with concurrency limit `k`, the
number of per-contact pipelines holding the semaphore — hence the number
of simultaneously in-flight fetches — is at most `k`, whatever the batch
size `n`. -/
theorem c9_concurrency_bound (k n : Nat) (s : SemState) (h : Reachable k n s) :
    countRunning s.tasks ≤ k := by
  have := sem_invariant h
  omega

/-- Witness for C9: with limit 2 and one task, the state after that task
acquires the semaphore is reachable and within the bound. -/
theorem c9_concurrency_bound_witness :
    countRunning (SemState.mk 1 [TaskPhase.running]).tasks ≤ 2 :=
  c9_concurrency_bound 2 1 ⟨1, [TaskPhase.running]⟩
    (Reachable.step Reachable.init
      (SemStep.acquire (initState 2 1) 0 (by decide) (by decide) (by decide)))

/-! ### Claim C10: the fetcher's result discipline -/

theorem fetchStep_done_safety (resp : FetchResp) (attempt : Nat) (out : FetchOut)
    (h : fetchStep resp attempt = .done out) :
    ((out.success = true → out.error = "" ∧ isBlank out.content = false) ∧
     (out.success = false → out.content = "")) := by
  cases resp with
  | http st body =>
      unfold fetchStep at h
      dsimp only at h
      by_cases h1 : 200 ≤ st ∧ st < 300
      · rw [if_pos h1] at h
        by_cases h2 : isBlank body
        · rw [if_pos h2] at h
          cases h
        · rw [if_neg h2] at h
          cases h
          exact ⟨(fun _ => ⟨rfl, by simpa using h2⟩), fun hs => by cases hs⟩
      · rw [if_neg h1] at h
        by_cases h2 : st = 404
        · rw [if_pos h2] at h
          cases h
          exact ⟨(fun hs => by cases hs), fun _ => rfl⟩
        · rw [if_neg h2] at h
          by_cases h3 : st < 500 ∧ st ≠ 408 ∧ st ≠ 429
          · rw [if_pos h3] at h
            cases h
            exact ⟨(fun hs => by cases hs), fun _ => rfl⟩
          · rw [if_neg h3] at h
            cases h
  | timeout => cases h
  | clientError m =>
      cases h
      exact ⟨(fun hs => by cases hs), fun _ => rfl⟩
  | unexpectedError m =>
      cases h
      exact ⟨(fun hs => by cases hs), fun _ => rfl⟩

theorem fetchGo_safety (oracle : Nat → FetchResp) : ∀ remaining attempt : Nat,
    (((fetchGo oracle remaining attempt).success = true →
       (fetchGo oracle remaining attempt).error = "" ∧
       isBlank (fetchGo oracle remaining attempt).content = false) ∧
     ((fetchGo oracle remaining attempt).success = false →
       (fetchGo oracle remaining attempt).content = ""))
  | 0, attempt => by
      cases hstep : fetchStep (oracle attempt) attempt with
      | done out =>
          have heq : fetchGo oracle 0 attempt = out := by
            simp only [fetchGo, hstep]
          rw [heq]
          exact fetchStep_done_safety _ _ _ hstep
      | retry e =>
          have heq : fetchGo oracle 0 attempt = ⟨false, "", e, attempt + 1⟩ := by
            simp only [fetchGo, hstep]
          rw [heq]
          exact ⟨(fun hs => by cases hs), fun _ => rfl⟩
  | r + 1, attempt => by
      cases hstep : fetchStep (oracle attempt) attempt with
      | done out =>
          have heq : fetchGo oracle (r + 1) attempt = out := by
            simp only [fetchGo, hstep]
          rw [heq]
          exact fetchStep_done_safety _ _ _ hstep
      | retry e =>
          have heq : fetchGo oracle (r + 1) attempt = fetchGo oracle r (attempt + 1) := by
            simp only [fetchGo, hstep]
          rw [heq]
          exact fetchGo_safety oracle r (attempt + 1)

/-- C10: the fetcher is a total function into `(success, content, error)`
triples (it catches timeouts, client errors and unexpected exceptions, so
the embedding never raises), and for every oracle and retry bound: success
implies the error string is empty and the content is non-blank (non-empty
after stripping whitespace, the `content and content.strip()` test), and
failure implies the content string is empty. -/
theorem c10_fetcher_safety (oracle : Nat → FetchResp) (maxRetries : Nat) :
    ((fetch_website_with_retries oracle maxRetries).success = true →
      (fetch_website_with_retries oracle maxRetries).error = "" ∧
      isBlank (fetch_website_with_retries oracle maxRetries).content = false) ∧
    ((fetch_website_with_retries oracle maxRetries).success = false →
      (fetch_website_with_retries oracle maxRetries).content = "") :=
  fetchGo_safety oracle maxRetries 0

/-- Witness for C10 on a concrete success and a concrete failure. -/
theorem c10_fetcher_safety_witness :
    (fetch_website_with_retries (fun _ => FetchResp.http 200 "hello") 0).error = "" ∧
    (fetch_website_with_retries (fun _ => FetchResp.timeout) 0).content = "" :=
  ⟨((c10_fetcher_safety (fun _ => FetchResp.http 200 "hello") 0).1 (by decide)).1,
   (c10_fetcher_safety (fun _ => FetchResp.timeout) 0).2 (by decide)⟩

end AiLeads
